import Mathlib

/-!
Shallow embedding of `src/my/core/discovery_pure.py` (the HPI static module
discovery engine) and verification of its specification claims.

The Python file statically inspects source files via the `ast` module.  We
embed exactly the fragment of the Python AST that the code consults through
`isinstance` checks and `getattr` probes, and model the file-system walk as a
list of pre-parsed files (path components relative to the tree root's parent,
symlink flag, and the result of `ast.parse` on the file's text).
-/

/-- Module-level constant `REQUIRES = 'REQUIRES'`: the fixed identifier of the
requirements declaration. -/
def REQUIRES : String := "REQUIRES"

/-- Module-level constant `NOT_HPI_MODULE_VAR = '__NOT_HPI_MODULE__'`: the
opt-out sentinel identifier. -/
def NOT_HPI_MODULE_VAR : String := "__NOT_HPI_MODULE__"

/-- Value carried by an `ast.Constant` node: either a Python string constant
or some non-string constant (int, bool, None, ...), kept abstractly as its
printed form.  `_extract_requirements` appends such values unchanged. -/
inductive PyConst where
  | str (s : String)
  | other (lit : String)
deriving DecidableEq

/-- The expression nodes the Python code distinguishes.  `constant` is
`ast.Constant` (has `.value`, no `.elts`, no `.id`); `strNode` is the legacy
`ast.Str` node (has `.s`; never produced by `ast.parse` on Python >= 3.8);
`coll` is any of `ast.List`/`ast.Tuple`/`ast.Set` (the nodes with `.elts`);
`name` is `ast.Name` (the only target node with `.id`); `otherExpr` is any
other expression node (no `.elts`, no `.id`). -/
inductive PyExpr where
  | constant (v : PyConst)
  | strNode (s : String)
  | coll (elts : List PyExpr)
  | name (id : String)
  | otherExpr

/-- `ast.alias`: `.name` is the imported name as written at its origin,
`.asname` the optional rename.  The Python code only reads `.name`. -/
structure PyAlias where
  name : String
  asname : Option String

/-- The top-level statement nodes the Python code distinguishes.
`assign` is `ast.Assign` (fields `.targets`, `.value`); `defName` is any of
`ast.FunctionDef`/`ast.AsyncFunctionDef`/`ast.ClassDef` (the statements with a
string `.name`); `importNames` is `ast.Import`/`ast.ImportFrom` (the
statements whose `.names` is a list of `ast.alias`); `exprValue` is `ast.Expr`
(relevant for the docstring position); `otherStmt` is any other statement —
note `Global`/`Nonlocal` have a `.names` of plain strings, and
`getattr(s, 'name', None)` on a plain string is `None`, so for every probe the
code performs they behave like `otherStmt`. -/
inductive PyStmt where
  | assign (targets : List PyExpr) (value : PyExpr)
  | defName (name : String)
  | importNames (names : List PyAlias)
  | exprValue (value : PyExpr)
  | otherStmt

/-- Embeds `getattr(t, 'id', None)`: only `ast.Name` nodes carry `.id`. -/
def exprId? : PyExpr → Option String
  | .name id => some id
  | _ => none

/-- Embeds `getattr(vals, 'elts', None)`: only list/tuple/set literals carry
`.elts`. -/
def elts? : PyExpr → Option (List PyExpr)
  | .coll es => some es
  | _ => none

/-- Embeds `getattr(node, 'name', None)` on a top-level statement: only
function/class definition statements carry a string `.name`. -/
def stmtName? : PyStmt → Option String
  | .defName n => some n
  | _ => none

/-- Embeds `getattr(node, 'names', [])` on a top-level statement, restricted
to alias lists: only import statements carry `.names` of `ast.alias`. -/
def stmtAliases : PyStmt → List PyAlias
  | .importNames ns => ns
  | _ => []

/-- One iteration of the element loop of `_extract_requirements`:
`isinstance(c, ast.Constant)` appends `c.value` (whatever constant it is),
`isinstance(c, ast.Str)` appends `c.s`, anything else raises
`RuntimeError(f"Expecting string contants only in {REQUIRES} declaration")`. -/
def extractElt : PyExpr → Except String PyConst
  | .constant v => .ok v
  | .strNode s => .ok (.str s)
  | _ => .error ("Expecting string contants only in " ++ REQUIRES ++ " declaration")

/-- The element loop of `_extract_requirements`: appends converted elements in
order, raising at the first offending element. -/
def extractDeps : List PyExpr → Except String (List PyConst)
  | [] => .ok []
  | c :: cs =>
    match extractElt c with
    | .error e => .error e
    | .ok v =>
      match extractDeps cs with
      | .error e => .error e
      | .ok vs => .ok (v :: vs)

/-- Embeds `_extract_requirements`: scan the module body for the first
`ast.Assign` with exactly one target whose `.id` is `REQUIRES` and whose value
has `.elts`; convert the elements (raising on a non-constant element); return
`none` when no such assignment exists.  Statements failing any of the guards
are skipped with `continue`. -/
def extract_requirements : List PyStmt → Except String (Option (List PyConst))
  | [] => .ok none
  | x :: xs =>
    match x with
    | .assign tgs value =>
      match tgs with
      | [t] =>
        match exprId? t with
        | some id =>
          if id = REQUIRES then
            match elts? value with
            | some es =>
              match extractDeps es with
              | .ok deps => .ok (some deps)
              | .error e => .error e
            | none => extract_requirements xs
          else extract_requirements xs
        | none => extract_requirements xs
      | _ => extract_requirements xs
    | _ => extract_requirements xs

/-- Matches a literal character sequence at the front of the input, returning
the rest on success. -/
def matchLit : List Char → List Char → Option (List Char)
  | [], l => some l
  | _ :: _, [] => none
  | c :: cs, x :: xs => if x = c then matchLit cs xs else none

/-- Matches Python's `.*$` (no `re.MULTILINE`, no `re.DOTALL`) against the
remaining characters: `.` never matches a newline, and `$` matches at the end
of the string or just before one trailing newline. -/
def dotStarEnd (l : List Char) : Bool :=
  match l.getLast? with
  | some c => if c = '\n' then l.dropLast.all (fun x => x != '\n') else l.all (fun x => x != '\n')
  | none => true

/-- Embeds `ignored`: `re.match('^my.(core.*|config.*)$', m) is not None`.
The dots of the pattern are unescaped, so the one after `my` matches any
single non-newline character and `core.*`/`config.*` match `core`/`config`
followed by any non-newline characters. -/
def ignored (m : String) : Bool :=
  match m.toList with
  | 'm' :: 'y' :: c :: rest =>
    (c != '\n') &&
      ((match matchLit ['c', 'o', 'r', 'e'] rest with
        | some r => dotStarEnd r
        | none => false) ||
       (match matchLit ['c', 'o', 'n', 'f', 'i', 'g'] rest with
        | some r => dotStarEnd r
        | none => false))
  | _ => false

/-- Embeds the `is_not_module` check of `all_modules`: some top-level node has
`.name` equal to the sentinel, or some alias in its `.names` has `.name` equal
to the sentinel. -/
def isNotModule (body : List PyStmt) : Bool :=
  body.any fun node =>
    (match stmtName? node with
     | some n => n == NOT_HPI_MODULE_VAR
     | none => false)
    || (stmtAliases node).any (fun al => al.name == NOT_HPI_MODULE_VAR)

/-- Embeds `ast.get_docstring(a, clean=False)`: the raw string of the first
statement when it is an expression statement holding a string constant. -/
def getDocstring (body : List PyStmt) : Option String :=
  match body with
  | .exprValue v :: _ =>
    match v with
    | .strNode s => some s
    | .constant (.str s) => some s
    | _ => none
  | _ => none

/-- Helper for pathlib's `Path.with_suffix('')` on the reversed character list
of a path component: `suffix` is the part from the last dot, provided that dot
is neither the first nor the last character of the component; returns the
reversed remaining characters when a suffix is stripped. -/
def revStripExt : List Char → Bool → Option (List Char)
  | [], _ => none
  | c :: cs, seen =>
    if c = '.' then
      if seen && !cs.isEmpty then some cs else none
    else revStripExt cs true

/-- Embeds `Path.with_suffix('')` applied to one path component. -/
def dropExt (s : String) : String :=
  match revStripExt s.toList.reverse false with
  | some a => String.mk a.reverse
  | none => s

/-- Applies a function to the last component of a list (pathlib's
`with_suffix` only touches the final path component). -/
def mapLast (g : String → String) : List String → List String
  | [] => []
  | [a] => [g a]
  | a :: rest => a :: mapLast g rest

/-- Joins path components with dots: `str(mp).replace('/', '.')` for a
relative path, since `str` joins components with `/` and components contain
no slash. -/
def joinDots : List String → String
  | [] => ""
  | [a] => a
  | a :: rest => a ++ "." ++ joinDots rest

/-- Embeds the name canonicalization of `all_modules` applied to
`mp = f.relative_to(my_root.parent)`: drop the final component when it is
`__init__.py`, then `with_suffix('')` on the result, then join with dots. -/
def canonName (path : List String) : String :=
  joinDots (mapLast dropExt
    (if path.getLast? = some "__init__.py" then path.dropLast else path))

/-- A source file as the walk of `all_modules` sees it: the components of
`f.relative_to(my_root.parent)`, whether `f.is_symlink()`, and the outcome of
`ast.parse(f.read_text())` (top-level body, or the `SyntaxError` message). -/
structure PyFile where
  path : List String
  isSymlink : Bool
  src : Except String (List PyStmt)

/-- Embeds the `HPIModule` named tuple.  `requires` elements are the values
the extractor appended (`PyConst`, since the code appends any constant's
value); `file` is the stored relative path's components. -/
structure HPIModule where
  name : String
  skip_reason : Option String
  doc : Option String
  file : Option (List String)
  requires : Option (List PyConst)
deriving DecidableEq

/-- The record `all_modules` yields for a file that passed every filter:
`requires` comes from `_extract_requirements` with any raised error caught
(and logged through the side channel we do not model) leaving `None`. -/
def mkRecord (f : PyFile) (body : List PyStmt) : HPIModule :=
  { name := canonName f.path
    skip_reason := none
    doc := getDocstring body
    file := some f.path
    requires :=
      match extract_requirements body with
      | .ok r => r
      | .error _ => none }

/-- Embeds the generator `all_modules` run on the sorted walk `fs`: the first
component is the list of records yielded before the generator either finished
or raised, the second the fatal `SyntaxError` message when `ast.parse` raised
(which the generator does not catch, ending the stream there). -/
def allModulesAux : List PyFile → List HPIModule × Option String
  | [] => ([], none)
  | f :: fs =>
    if f.isSymlink then allModulesAux fs
    else if ignored (canonName f.path) then allModulesAux fs
    else
      match f.src with
      | .error e => ([], some e)
      | .ok body =>
        if isNotModule body then allModulesAux fs
        else
          let rest := allModulesAux fs
          (mkRecord f body :: rest.1, rest.2)

/-- Embeds `module_by_name`: iterate the lazy stream of `all_modules`,
returning the first record whose name equals the argument; when the stream is
exhausted raise `RuntimeError(f'No such module: {name}')`; a parse error hit
before any match propagates instead. -/
def module_by_name (fs : List PyFile) (nm : String) : Except String HPIModule :=
  match (allModulesAux fs).1.find? (fun m => m.name == nm) with
  | some m => Except.ok m
  | none =>
    match (allModulesAux fs).2 with
    | some e => Except.error e
    | none => Except.error ("No such module: " ++ nm)

/-- A statement is a top-level assignment having the `REQUIRES` identifier
among its targets. -/
def assignsReq : PyStmt → Bool
  | .assign tgs _ => tgs.any (fun t => exprId? t == some REQUIRES)
  | _ => false

/-- A file that contributes a record to the stream: not a symlink, name not
excluded, parsed successfully, and without the opt-out sentinel. -/
def eligible (f : PyFile) : Bool :=
  !f.isSymlink && !ignored (canonName f.path) &&
    match f.src with
    | .ok body => !isNotModule body
    | .error _ => false

/-- The record a file yields, as a total function (the `.error` branch is
never reached for eligible files). -/
def recordOf (f : PyFile) : HPIModule :=
  match f.src with
  | .ok body => mkRecord f body
  | .error _ => mkRecord f []

/-- Modelled from the spec's words for comparison (claim C7): the exclusion
filter is described as returning true exactly for the two legacy-reserved
subnamespaces directly beneath the root namespace — the names `my.core` and
`my.config` themselves and the names beneath them — anchored to the whole
name and case-sensitive. -/
def specExcludedName (m : String) : Bool :=
  m == "my.core" || m == "my.config" ||
    (matchLit "my.core.".toList m.toList).isSome ||
    (matchLit "my.config.".toList m.toList).isSome

/-- Modelled from the claim's words for comparison (claim C9): strip the
source extension first; if the remaining final component equals the
package-init filename, drop it; then join the components with the dot
separator. -/
def specCanonName (path : List String) : String :=
  joinDots (if (mapLast dropExt path).getLast? = some "__init__" then
    (mapLast dropExt path).dropLast else mapLast dropExt path)

/-- A module body holding only a docstring. -/
def demoBody : List PyStmt := [PyStmt.exprValue (PyExpr.constant (PyConst.str "demo doc"))]

def demoFile : PyFile := ⟨["my", "demo.py"], false, Except.ok demoBody⟩

/-- A module body declaring `REQUIRES = []`. -/
def emptyReqBody : List PyStmt := [PyStmt.assign [PyExpr.name "REQUIRES"] (PyExpr.coll [])]

def emptyReqFile : PyFile := ⟨["my", "e.py"], false, Except.ok emptyReqBody⟩

/-- A module body declaring `REQUIRES = ["a", "b"]`. -/
def abReqBody : List PyStmt :=
  [PyStmt.assign [PyExpr.name "REQUIRES"]
    (PyExpr.coll [PyExpr.constant (PyConst.str "a"), PyExpr.constant (PyConst.str "b")])]

def abReqFile : PyFile := ⟨["my", "ab.py"], false, Except.ok abReqBody⟩

/-- A module body declaring the chained assignment `REQUIRES = OTHER = ["a"]`:
one `ast.Assign` with two targets. -/
def chainBody : List PyStmt :=
  [PyStmt.assign [PyExpr.name "REQUIRES", PyExpr.name "OTHER"]
    (PyExpr.coll [PyExpr.constant (PyConst.str "a")])]

def chainFile : PyFile := ⟨["my", "chain.py"], false, Except.ok chainBody⟩

/-- A module body declaring `REQUIRES = [1]`: the element is an `ast.Constant`
whose value is the non-string `1` (any Python since 3.8 parses it so). -/
def badReqBody : List PyStmt :=
  [PyStmt.assign [PyExpr.name "REQUIRES"] (PyExpr.coll [PyExpr.constant (PyConst.other "1")])]

def badReqFile : PyFile := ⟨["my", "bad.py"], false, Except.ok badReqBody⟩

/-- A module body whose only statement is the top-level variable binding
`__NOT_HPI_MODULE__ = True`. -/
def varSentinelBody : List PyStmt :=
  [PyStmt.assign [PyExpr.name "__NOT_HPI_MODULE__"] (PyExpr.constant (PyConst.other "True"))]

def varSentinelFile : PyFile := ⟨["my", "optout.py"], false, Except.ok varSentinelBody⟩

/-- A file whose only statement is `def __NOT_HPI_MODULE__(): ...`. -/
def defSentinelFile : PyFile :=
  ⟨["my", "skipme.py"], false, Except.ok [PyStmt.defName "__NOT_HPI_MODULE__"]⟩

/-- A file whose only statement is `import foo as __NOT_HPI_MODULE__`:
the alias's `.name` is `foo`, its `.asname` the sentinel. -/
def importAsFile : PyFile :=
  ⟨["my", "ren.py"], false,
    Except.ok [PyStmt.importNames [⟨"foo", some "__NOT_HPI_MODULE__"⟩]]⟩

/-- A module body declaring `REQUIRES = deps`: the right-hand side is a name,
not a literal collection. -/
def nameReqBody : List PyStmt := [PyStmt.assign [PyExpr.name "REQUIRES"] (PyExpr.name "deps")]

def nameReqFile : PyFile := ⟨["my", "dyn.py"], false, Except.ok nameReqBody⟩

/-- A later, well-formed requirements declaration `REQUIRES = ["z"]`. -/
def zReqStmts : List PyStmt :=
  [PyStmt.assign [PyExpr.name "REQUIRES"] (PyExpr.coll [PyExpr.constant (PyConst.str "z")])]

/-- An empty, eligible file used for lookups. -/
def lookFile : PyFile := ⟨["my", "look.py"], false, Except.ok ([] : List PyStmt)⟩

def cleanFile : PyFile := ⟨["my", "ok.py"], false, Except.ok ([] : List PyStmt)⟩

/-- A file on which `ast.parse` raises `SyntaxError`. -/
def badParseFile : PyFile :=
  ⟨["my", "broken.py"], false, Except.error "invalid syntax (broken.py, line 1)"⟩

def afterFile : PyFile := ⟨["my", "zz.py"], false, Except.ok ([] : List PyStmt)⟩

/-- The file `my/foo.py`, sibling of the package directory `my/foo/`. -/
def shadowFile : PyFile := ⟨["my", "foo.py"], false, Except.ok ([] : List PyStmt)⟩

/-- The package-init file `my/foo/__init__.py`. -/
def pkgInitFile : PyFile := ⟨["my", "foo", "__init__.py"], false, Except.ok ([] : List PyStmt)⟩

/-- The package-init file `my/a.b/__init__.py` of a package directory whose
name contains a dot. -/
def dottedPkgFile : PyFile := ⟨["my", "a.b", "__init__.py"], false, Except.ok ([] : List PyStmt)⟩

example : ignored "my.core" = true := by decide
example : ignored "my.core.foo" = true := by decide
example : ignored "my.coreutils" = true := by decide
example : ignored "my.demo" = false := by decide
example : canonName ["my", "demo.py"] = "my.demo" := by decide
example : canonName ["my", "pkg", "__init__.py"] = "my.pkg" := by decide
example : canonName ["my", "a.b", "__init__.py"] = "my.a" := by decide

lemma allModulesAux_symlink (f : PyFile) (fs : List PyFile) (h : f.isSymlink = true) :
    allModulesAux (f :: fs) = allModulesAux fs := by
  simp [allModulesAux, h]

lemma allModulesAux_ignored (f : PyFile) (fs : List PyFile)
    (h : f.isSymlink = false) (hi : ignored (canonName f.path) = true) :
    allModulesAux (f :: fs) = allModulesAux fs := by
  simp [allModulesAux, h, hi]

lemma allModulesAux_err (f : PyFile) (fs : List PyFile) (e : String)
    (h : f.isSymlink = false) (hi : ignored (canonName f.path) = false)
    (he : f.src = Except.error e) :
    allModulesAux (f :: fs) = ([], some e) := by
  simp [allModulesAux, h, hi, he]

lemma allModulesAux_sentinel (f : PyFile) (fs : List PyFile) (body : List PyStmt)
    (h : f.isSymlink = false) (hi : ignored (canonName f.path) = false)
    (hp : f.src = Except.ok body) (hn : isNotModule body = true) :
    allModulesAux (f :: fs) = allModulesAux fs := by
  simp [allModulesAux, h, hi, hp, hn]

lemma allModulesAux_emit (f : PyFile) (fs : List PyFile) (body : List PyStmt)
    (h : f.isSymlink = false) (hi : ignored (canonName f.path) = false)
    (hp : f.src = Except.ok body) (hn : isNotModule body = false) :
    allModulesAux (f :: fs) =
      (mkRecord f body :: (allModulesAux fs).1, (allModulesAux fs).2) := by
  simp [allModulesAux, h, hi, hp, hn]

lemma mem_records {fs : List PyFile} {r : HPIModule} (hr : r ∈ (allModulesAux fs).1) :
    ∃ f ∈ fs, ∃ body, f.src = Except.ok body ∧ f.isSymlink = false ∧
      ignored (canonName f.path) = false ∧ isNotModule body = false ∧
      r = mkRecord f body := by
  induction fs with
  | nil => simp [allModulesAux] at hr
  | cons f fs ih =>
    cases hs : f.isSymlink with
    | true =>
      rw [allModulesAux_symlink f fs hs] at hr
      obtain ⟨g, hg, rest⟩ := ih hr
      exact ⟨g, List.mem_cons_of_mem _ hg, rest⟩
    | false =>
      cases hi : ignored (canonName f.path) with
      | true =>
        rw [allModulesAux_ignored f fs hs hi] at hr
        obtain ⟨g, hg, rest⟩ := ih hr
        exact ⟨g, List.mem_cons_of_mem _ hg, rest⟩
      | false =>
        cases hsrc : f.src with
        | error e =>
          rw [allModulesAux_err f fs e hs hi hsrc] at hr
          simp at hr
        | ok body =>
          cases hn : isNotModule body with
          | true =>
            rw [allModulesAux_sentinel f fs body hs hi hsrc hn] at hr
            obtain ⟨g, hg, rest⟩ := ih hr
            exact ⟨g, List.mem_cons_of_mem _ hg, rest⟩
          | false =>
            rw [allModulesAux_emit f fs body hs hi hsrc hn] at hr
            rcases List.mem_cons.mp hr with hEq | hmem
            · exact ⟨f, List.mem_cons_self f fs, body, hsrc, hs, hi, hn, hEq⟩
            · obtain ⟨g, hg, rest⟩ := ih hmem
              exact ⟨g, List.mem_cons_of_mem _ hg, rest⟩

lemma extract_skip (s : PyStmt) (xs : List PyStmt) (h : assignsReq s = false) :
    extract_requirements (s :: xs) = extract_requirements xs := by
  cases s with
  | assign tgs v =>
    cases tgs with
    | nil => rfl
    | cons t rest =>
      cases rest with
      | nil =>
        simp [assignsReq] at h
        cases hid : exprId? t with
        | none => simp [extract_requirements, hid]
        | some i =>
          have hne : i ≠ REQUIRES := by
            intro heq
            rw [hid, heq] at h
            simp at h
          simp [extract_requirements, hid, hne]
      | cons t2 rest2 => rfl
  | defName n => rfl
  | importNames ns => rfl
  | exprValue v => rfl
  | otherStmt => rfl

lemma extract_noReq (xs : List PyStmt) (h : ∀ s ∈ xs, assignsReq s = false) :
    extract_requirements xs = Except.ok none := by
  induction xs with
  | nil => rfl
  | cons s xs ih =>
    rw [extract_skip s xs (h s (List.mem_cons_self s xs))]
    exact ih (fun t ht => h t (List.mem_cons_of_mem s ht))

lemma extract_append_noReq (pre xs : List PyStmt) (h : ∀ s ∈ pre, assignsReq s = false) :
    extract_requirements (pre ++ xs) = extract_requirements xs := by
  induction pre with
  | nil => rfl
  | cons s pre ih =>
    rw [List.cons_append, extract_skip s _ (h s (List.mem_cons_self s pre))]
    exact ih (fun t ht => h t (List.mem_cons_of_mem s ht))

lemma extract_hit (es : List PyExpr) (xs : List PyStmt) :
    extract_requirements (PyStmt.assign [PyExpr.name REQUIRES] (PyExpr.coll es) :: xs) =
      match extractDeps es with
      | .ok deps => Except.ok (some deps)
      | .error e => Except.error e := by
  simp [extract_requirements, exprId?, elts?]

lemma extract_multi_target (tgs : List PyExpr) (v : PyExpr) (xs : List PyStmt)
    (h : tgs.length ≠ 1) :
    extract_requirements (PyStmt.assign tgs v :: xs) = extract_requirements xs := by
  cases tgs with
  | nil => rfl
  | cons t rest =>
    cases rest with
    | nil => simp at h
    | cons t2 rest2 => rfl

lemma extract_no_elts (v : PyExpr) (xs : List PyStmt) (hv : elts? v = none) :
    extract_requirements (PyStmt.assign [PyExpr.name REQUIRES] v :: xs) =
      extract_requirements xs := by
  simp [extract_requirements, exprId?, hv]

lemma my_append_ne_empty (s : String) : "my" ++ s ≠ "" := by
  intro h
  have hd := congrArg String.length h
  simp [String.length_append] at hd
  exact absurd hd.1 (by decide)

lemma joinDots_my_cons_ne_empty (xs : List String) : joinDots ("my" :: xs) ≠ "" := by
  cases xs with
  | nil => decide
  | cons y ys =>
    show "my" ++ "." ++ joinDots (y :: ys) ≠ ""
    rw [String.append_assoc]
    exact my_append_ne_empty _

lemma mapLast_my_cons (l : List String) :
    ∃ xs, mapLast dropExt ("my" :: l) = "my" :: xs := by
  cases l with
  | nil => exact ⟨[], by decide⟩
  | cons y ys => exact ⟨mapLast dropExt (y :: ys), rfl⟩

lemma canonName_my_ne_empty (l : List String) (hl : l ≠ []) :
    canonName ("my" :: l) ≠ "" := by
  unfold canonName
  by_cases hlast : ("my" :: l).getLast? = some "__init__.py"
  · rw [if_pos hlast]
    have hdrop : ("my" :: l).dropLast = "my" :: l.dropLast := by
      cases l with
      | nil => exact absurd rfl hl
      | cons y ys => rfl
    rw [hdrop]
    obtain ⟨xs, hxs⟩ := mapLast_my_cons l.dropLast
    rw [hxs]
    exact joinDots_my_cons_ne_empty xs
  · rw [if_neg hlast]
    obtain ⟨xs, hxs⟩ := mapLast_my_cons l
    rw [hxs]
    exact joinDots_my_cons_ne_empty xs

/-- C1: for every file processed by `all_modules`, the requirements result is
three-valued: a body with no top-level assignment to the `REQUIRES` identifier
yields a record with `requires` absent; a body declaring `REQUIRES = []`
(with no earlier `REQUIRES` assignment) yields a present-but-empty sequence;
a body declaring `REQUIRES = ["a", "b"]` yields the present sequence
`("a", "b")` with the source order preserved. -/
theorem c1_requires_three_valued :
    (∀ (f : PyFile) (fs : List PyFile) (body : List PyStmt),
      f.isSymlink = false → ignored (canonName f.path) = false →
      f.src = Except.ok body → isNotModule body = false →
      (∀ s ∈ body, assignsReq s = false) →
      (allModulesAux (f :: fs)).1.head? = some (mkRecord f body) ∧
        (mkRecord f body).requires = none)
  ∧ (∀ (f : PyFile) (fs : List PyFile) (pre post body : List PyStmt),
      f.isSymlink = false → ignored (canonName f.path) = false →
      f.src = Except.ok body → isNotModule body = false →
      body = pre ++ PyStmt.assign [PyExpr.name REQUIRES] (PyExpr.coll []) :: post →
      (∀ s ∈ pre, assignsReq s = false) →
      (allModulesAux (f :: fs)).1.head? = some (mkRecord f body) ∧
        (mkRecord f body).requires = some [])
  ∧ (∀ (f : PyFile) (fs : List PyFile) (pre post body : List PyStmt),
      f.isSymlink = false → ignored (canonName f.path) = false →
      f.src = Except.ok body → isNotModule body = false →
      body = pre ++ PyStmt.assign [PyExpr.name REQUIRES]
        (PyExpr.coll [PyExpr.constant (PyConst.str "a"),
          PyExpr.constant (PyConst.str "b")]) :: post →
      (∀ s ∈ pre, assignsReq s = false) →
      (allModulesAux (f :: fs)).1.head? = some (mkRecord f body) ∧
        (mkRecord f body).requires = some [PyConst.str "a", PyConst.str "b"]) := by
  refine ⟨?_, ?_, ?_⟩
  · intro f fs body hs hi hp hn hno
    refine ⟨?_, ?_⟩
    · rw [allModulesAux_emit f fs body hs hi hp hn]
      rfl
    · simp [mkRecord, extract_noReq body hno]
  · intro f fs pre post body hs hi hp hn hbody hpre
    have hext : extract_requirements body = Except.ok (some []) := by
      rw [hbody, extract_append_noReq pre _ hpre, extract_hit]
      rfl
    refine ⟨?_, ?_⟩
    · rw [allModulesAux_emit f fs body hs hi hp hn]
      rfl
    · simp [mkRecord, hext]
  · intro f fs pre post body hs hi hp hn hbody hpre
    have hext : extract_requirements body =
        Except.ok (some [PyConst.str "a", PyConst.str "b"]) := by
      rw [hbody, extract_append_noReq pre _ hpre, extract_hit]
      rfl
    refine ⟨?_, ?_⟩
    · rw [allModulesAux_emit f fs body hs hi hp hn]
      rfl
    · simp [mkRecord, hext]

/-- Witness for C1 at the concrete files `my/demo.py` (no declaration),
`my/e.py` (`REQUIRES = []`) and `my/ab.py` (`REQUIRES = ["a", "b"]`). -/
theorem c1_witness :
    ((allModulesAux [demoFile]).1.head? = some (mkRecord demoFile demoBody) ∧
      (mkRecord demoFile demoBody).requires = none)
  ∧ ((allModulesAux [emptyReqFile]).1.head? = some (mkRecord emptyReqFile emptyReqBody) ∧
      (mkRecord emptyReqFile emptyReqBody).requires = some [])
  ∧ ((allModulesAux [abReqFile]).1.head? = some (mkRecord abReqFile abReqBody) ∧
      (mkRecord abReqFile abReqBody).requires = some [PyConst.str "a", PyConst.str "b"]) :=
  ⟨c1_requires_three_valued.1 demoFile [] demoBody rfl (by decide) rfl (by decide) (by decide),
   c1_requires_three_valued.2.1 emptyReqFile [] [] [] emptyReqBody rfl (by decide) rfl
     (by decide) rfl (by decide),
   c1_requires_three_valued.2.2 abReqFile [] [] [] abReqBody rfl (by decide) rfl
     (by decide) rfl (by decide)⟩

/-- C10: a file whose only top-level assignment mentioning `REQUIRES` is a
chained (multi-target) assignment is skipped by the extractor — it only
considers assignments with exactly one target — so extraction succeeds with
`requires` absent and the record is still emitted. -/
theorem c10_chained_assignment_skipped
    (f : PyFile) (fs : List PyFile) (pre post body : List PyStmt)
    (tgs : List PyExpr) (v : PyExpr)
    (hs : f.isSymlink = false) (hi : ignored (canonName f.path) = false)
    (hp : f.src = Except.ok body) (hn : isNotModule body = false)
    (hbody : body = pre ++ PyStmt.assign tgs v :: post)
    (hlen : tgs.length ≠ 1)
    (hpre : ∀ s ∈ pre, assignsReq s = false)
    (hpost : ∀ s ∈ post, assignsReq s = false) :
    extract_requirements body = Except.ok none ∧
    (allModulesAux (f :: fs)).1.head? = some (mkRecord f body) ∧
    (mkRecord f body).requires = none := by
  have hext : extract_requirements body = Except.ok none := by
    rw [hbody, extract_append_noReq pre _ hpre, extract_multi_target tgs v post hlen,
      extract_noReq post hpost]
  refine ⟨hext, ?_, ?_⟩
  · rw [allModulesAux_emit f fs body hs hi hp hn]
    rfl
  · simp [mkRecord, hext]

/-- Witness for C10 at the concrete file `my/chain.py` containing exactly
`REQUIRES = OTHER = ["a"]`. -/
theorem c10_witness :
    extract_requirements chainBody = Except.ok none ∧
    (allModulesAux [chainFile]).1.head? = some (mkRecord chainFile chainBody) ∧
    (mkRecord chainFile chainBody).requires = none :=
  c10_chained_assignment_skipped chainFile [] [] [] chainBody
    [PyExpr.name "REQUIRES", PyExpr.name "OTHER"]
    (PyExpr.coll [PyExpr.constant (PyConst.str "a")])
    rfl (by decide) rfl (by decide) rfl (by decide) (by decide) (by decide)

/-- C2 (behavior of the code at the failing input): a `REQUIRES` collection
containing the non-string constant `1` is NOT rejected — the element is an
`ast.Constant`, so its value is appended as-is: extraction returns a present
sequence holding the non-string value, no error is raised or caught, and the
emitted record carries that sequence instead of `requires = absent`. -/
theorem c2_nonstring_constant_not_rejected :
    extract_requirements badReqBody = Except.ok (some [PyConst.other "1"]) ∧
    (allModulesAux [badReqFile]).1 = [mkRecord badReqFile badReqBody] ∧
    (mkRecord badReqFile badReqBody).requires = some [PyConst.other "1"] ∧
    extractElt (PyExpr.name "x") =
      Except.error ("Expecting string contants only in " ++ REQUIRES ++ " declaration") := by
  refine ⟨rfl, ?_, by decide, rfl⟩
  rw [allModulesAux_emit badReqFile [] badReqBody rfl (by decide) rfl (by decide)]
  rfl

/-- C3 counterexample: the file `my/optout.py`, whose only top-level statement
is the variable binding `__NOT_HPI_MODULE__ = True` — a top-level definition
of the sentinel name, which the claim says must suppress the record — is not
detected (`ast.Assign` has neither `.name` nor `.names`) and `all_modules`
still emits a record for it. -/
theorem c3_counterexample :
    isNotModule varSentinelBody = false ∧
    (allModulesAux [varSentinelFile]).1 = [mkRecord varSentinelFile varSentinelBody] ∧
    (mkRecord varSentinelFile varSentinelBody).name = "my.optout" := by
  refine ⟨by decide, ?_, by decide⟩
  rw [allModulesAux_emit varSentinelFile [] varSentinelBody rfl (by decide) rfl (by decide)]
  rfl

/-- C3 amended: `all_modules` emits no record exactly when some top-level
statement carries a `.name` attribute equal to the sentinel (function or class
definitions) or imports an alias whose original name equals the sentinel
(`import __NOT_HPI_MODULE__`, `from m import __NOT_HPI_MODULE__` — with or
without a rename); a plain variable assignment of the sentinel and
`import X as __NOT_HPI_MODULE__` (rename only) are NOT detected and such
files still yield records. -/
theorem c3_amended_sentinel_detection :
    (∀ (f : PyFile) (fs : List PyFile) (body : List PyStmt),
      f.isSymlink = false → ignored (canonName f.path) = false →
      f.src = Except.ok body →
      (∃ s ∈ body, stmtName? s = some NOT_HPI_MODULE_VAR ∨
        ∃ al ∈ stmtAliases s, al.name = NOT_HPI_MODULE_VAR) →
      allModulesAux (f :: fs) = allModulesAux fs)
  ∧ (∀ (f : PyFile) (fs : List PyFile) (v : PyExpr),
      f.isSymlink = false → ignored (canonName f.path) = false →
      f.src = Except.ok [PyStmt.assign [PyExpr.name NOT_HPI_MODULE_VAR] v] →
      (allModulesAux (f :: fs)).1.head? =
        some (mkRecord f [PyStmt.assign [PyExpr.name NOT_HPI_MODULE_VAR] v]))
  ∧ (∀ (f : PyFile) (fs : List PyFile) (orig : String),
      f.isSymlink = false → ignored (canonName f.path) = false →
      orig ≠ NOT_HPI_MODULE_VAR →
      f.src = Except.ok [PyStmt.importNames [⟨orig, some NOT_HPI_MODULE_VAR⟩]] →
      (allModulesAux (f :: fs)).1.head? =
        some (mkRecord f [PyStmt.importNames [⟨orig, some NOT_HPI_MODULE_VAR⟩]])) := by
  refine ⟨?_, ?_, ?_⟩
  · intro f fs body hs hi hp hex
    obtain ⟨s, hsmem, hcase⟩ := hex
    have hn : isNotModule body = true := by
      rw [isNotModule, List.any_eq_true]
      refine ⟨s, hsmem, ?_⟩
      rcases hcase with hname | ⟨al, halmem, haln⟩
      · simp [hname]
      · rw [Bool.or_eq_true, List.any_eq_true]
        right
        exact ⟨al, halmem, by simp [haln]⟩
    exact allModulesAux_sentinel f fs body hs hi hp hn
  · intro f fs v hs hi hp
    have hn : isNotModule [PyStmt.assign [PyExpr.name NOT_HPI_MODULE_VAR] v] = false := by
      simp [isNotModule, stmtName?, stmtAliases]
    rw [allModulesAux_emit f fs _ hs hi hp hn]
    rfl
  · intro f fs orig hs hi horig hp
    have hn : isNotModule [PyStmt.importNames [⟨orig, some NOT_HPI_MODULE_VAR⟩]] = false := by
      simp [isNotModule, stmtName?, stmtAliases, horig]
    rw [allModulesAux_emit f fs _ hs hi hp hn]
    rfl

/-- Witness for the amended C3: `my/skipme.py` (`def __NOT_HPI_MODULE__():`)
is dropped; `my/optout.py` (`__NOT_HPI_MODULE__ = True`) and `my/ren.py`
(`import foo as __NOT_HPI_MODULE__`) are emitted. -/
theorem c3_witness :
    allModulesAux [defSentinelFile] = allModulesAux [] ∧
    (allModulesAux [varSentinelFile]).1.head? =
      some (mkRecord varSentinelFile varSentinelBody) ∧
    (allModulesAux [importAsFile]).1.head? =
      some (mkRecord importAsFile [PyStmt.importNames [⟨"foo", some "__NOT_HPI_MODULE__"⟩]]) :=
  ⟨c3_amended_sentinel_detection.1 defSentinelFile [] [PyStmt.defName "__NOT_HPI_MODULE__"]
      rfl (by decide) rfl
      ⟨PyStmt.defName "__NOT_HPI_MODULE__", List.mem_cons_self _ _, Or.inl rfl⟩,
   c3_amended_sentinel_detection.2.1 varSentinelFile []
      (PyExpr.constant (PyConst.other "True")) rfl (by decide) rfl,
   c3_amended_sentinel_detection.2.2 importAsFile [] "foo" rfl (by decide) (by decide) rfl⟩

/-- C4 counterexample: the file `my/dyn.py` containing `REQUIRES = deps`
(right-hand side a name, not a literal collection) is treated neither as an
error nor coerced: the extractor silently skips the statement and returns
absent, and the record is emitted with `requires` absent — contradicting the
claim that a non-collection right-hand side is a hard extraction failure. -/
theorem c4_counterexample :
    extract_requirements nameReqBody = Except.ok none ∧
    (allModulesAux [nameReqFile]).1 = [mkRecord nameReqFile nameReqBody] ∧
    (mkRecord nameReqFile nameReqBody).requires = none := by
  refine ⟨rfl, ?_, by decide⟩
  rw [allModulesAux_emit nameReqFile [] nameReqBody rfl (by decide) rfl (by decide)]
  rfl

/-- C4 amended: a single-target assignment to `REQUIRES` whose right-hand side
is not a literal collection (no `.elts` attribute) is silently skipped — no
error is raised, nothing is coerced — and scanning continues with the
following statements; when no later `REQUIRES` assignment exists either, the
declaration result is absent. -/
theorem c4_amended_nonliteral_rhs_skipped
    (pre post : List PyStmt) (v : PyExpr)
    (hv : elts? v = none) (hpre : ∀ s ∈ pre, assignsReq s = false) :
    extract_requirements (pre ++ PyStmt.assign [PyExpr.name REQUIRES] v :: post) =
      extract_requirements post ∧
    ((∀ s ∈ post, assignsReq s = false) →
      extract_requirements (pre ++ PyStmt.assign [PyExpr.name REQUIRES] v :: post) =
        Except.ok none) := by
  constructor
  · rw [extract_append_noReq pre _ hpre, extract_no_elts v post hv]
  · intro hpost
    rw [extract_append_noReq pre _ hpre, extract_no_elts v post hv,
      extract_noReq post hpost]

/-- Witness for the amended C4: `REQUIRES = deps` followed by
`REQUIRES = ["z"]` — the non-literal declaration is skipped and scanning
continues to the later literal declaration. -/
theorem c4_witness :
    (extract_requirements (nameReqBody ++ zReqStmts) = extract_requirements zReqStmts ∧
      ((∀ s ∈ zReqStmts, assignsReq s = false) →
        extract_requirements (nameReqBody ++ zReqStmts) = Except.ok none)) ∧
    extract_requirements (nameReqBody ++ zReqStmts) = Except.ok (some [PyConst.str "z"]) :=
  ⟨c4_amended_nonliteral_rhs_skipped [] zReqStmts (PyExpr.name "deps") rfl (by decide), rfl⟩

lemma find_first_name (pre post : List HPIModule) (m : HPIModule) (nm : String)
    (hname : m.name = nm) (hpre : ∀ m2 ∈ pre, m2.name ≠ nm) :
    (pre ++ m :: post).find? (fun x => x.name == nm) = some m := by
  induction pre with
  | nil =>
    rw [List.nil_append, List.find?_cons_of_pos]
    simp [hname]
  | cons a pre ih =>
    rw [List.cons_append, List.find?_cons_of_neg]
    · exact ih (fun x hx => hpre x (List.mem_cons_of_mem a hx))
    · simp only [beq_iff_eq]
      exact hpre a (List.mem_cons_self a pre)

/-- C5: when the discovery pass completes without a fatal error,
`module_by_name` returns the first record of the pass whose name equals the
argument exactly, and on a name no record matches it returns the descriptive
error `No such module: <name>` — never a placeholder record. -/
theorem c5_module_by_name_spec (fs : List PyFile) (nm : String)
    (hclean : (allModulesAux fs).2 = none) :
    (∀ (pre : List HPIModule) (m : HPIModule) (post : List HPIModule),
      (allModulesAux fs).1 = pre ++ m :: post → m.name = nm →
      (∀ m2 ∈ pre, m2.name ≠ nm) → module_by_name fs nm = Except.ok m)
  ∧ ((∀ m ∈ (allModulesAux fs).1, m.name ≠ nm) →
      module_by_name fs nm = Except.error ("No such module: " ++ nm)) := by
  constructor
  · intro pre m post hsplit hname hpre
    unfold module_by_name
    rw [hsplit, find_first_name pre post m nm hname hpre]
  · intro hall
    have hfind : (allModulesAux fs).1.find? (fun x => x.name == nm) = none :=
      List.find?_eq_none.mpr (fun x hx => by
        simp only [beq_iff_eq]
        exact hall x hx)
    unfold module_by_name
    rw [hfind, hclean]

/-- Witness for C5: on the one-file tree `my/look.py` the name `my.look`
resolves to its record and the unknown name `my.nope` produces the
not-found error. -/
theorem c5_witness :
    module_by_name [lookFile] "my.look" = Except.ok (mkRecord lookFile []) ∧
    module_by_name [lookFile] "my.nope" = Except.error ("No such module: " ++ "my.nope") :=
  ⟨(c5_module_by_name_spec [lookFile] "my.look" rfl).1 [] (mkRecord lookFile []) []
      (by rw [allModulesAux_emit lookFile [] [] rfl (by decide) rfl (by decide)]; rfl)
      (by decide) (by simp),
   (c5_module_by_name_spec [lookFile] "my.nope" rfl).2 (by
      intro m hm
      have hrec : (allModulesAux [lookFile]).1 = [mkRecord lookFile []] := by
        rw [allModulesAux_emit lookFile [] [] rfl (by decide) rfl (by decide)]
        rfl
      rw [hrec, List.mem_singleton] at hm
      rw [hm]
      decide)⟩

/-- C6: for every file that reaches the parsing step (not a symlink, name not
excluded) during a pass that was clean so far, a parse failure is fatal for
the whole run: the pass ends at that file with the error, the records emitted
before it stand, and no later file contributes anything — the error is not
converted into a per-file skip. -/
theorem c6_parse_failure_fatal (pre post : List PyFile) (f : PyFile) (e : String)
    (hs : f.isSymlink = false) (hi : ignored (canonName f.path) = false)
    (hp : f.src = Except.error e)
    (hclean : (allModulesAux pre).2 = none) :
    allModulesAux (pre ++ f :: post) = ((allModulesAux pre).1, some e) := by
  induction pre with
  | nil =>
    rw [List.nil_append, allModulesAux_err f post e hs hi hp]
    rfl
  | cons g pre ih =>
    cases hgs : g.isSymlink with
    | true =>
      rw [allModulesAux_symlink g pre hgs] at hclean
      rw [List.cons_append, allModulesAux_symlink g _ hgs, ih hclean,
        allModulesAux_symlink g pre hgs]
    | false =>
      cases hgi : ignored (canonName g.path) with
      | true =>
        rw [allModulesAux_ignored g pre hgs hgi] at hclean
        rw [List.cons_append, allModulesAux_ignored g _ hgs hgi, ih hclean,
          allModulesAux_ignored g pre hgs hgi]
      | false =>
        cases hgsrc : g.src with
        | error e2 =>
          rw [allModulesAux_err g pre e2 hgs hgi hgsrc] at hclean
          simp at hclean
        | ok body =>
          cases hgn : isNotModule body with
          | true =>
            rw [allModulesAux_sentinel g pre body hgs hgi hgsrc hgn] at hclean
            rw [List.cons_append, allModulesAux_sentinel g _ body hgs hgi hgsrc hgn,
              ih hclean, allModulesAux_sentinel g pre body hgs hgi hgsrc hgn]
          | false =>
            rw [allModulesAux_emit g pre body hgs hgi hgsrc hgn] at hclean
            simp at hclean
            rw [List.cons_append, allModulesAux_emit g _ body hgs hgi hgsrc hgn,
              ih hclean, allModulesAux_emit g pre body hgs hgi hgsrc hgn]

/-- Witness for C6: in the walk `my/ok.py`, `my/broken.py` (unparseable),
`my/zz.py`, the pass yields the record of `my/ok.py`, ends with the
`SyntaxError` of `my/broken.py`, and nothing of `my/zz.py` appears. -/
theorem c6_witness :
    allModulesAux [cleanFile, badParseFile, afterFile] =
      ((allModulesAux [cleanFile]).1, some "invalid syntax (broken.py, line 1)") :=
  c6_parse_failure_fatal [cleanFile] [afterFile] badParseFile
    "invalid syntax (broken.py, line 1)" rfl (by decide) rfl rfl

/-- C7 counterexample: the exclusion filter also returns true for
`my.coreutils` — a module name that is neither `my.core`/`my.config` nor
beneath them — because the pattern's dots are unescaped and `core.*` matches
`core` followed by anything, so the filter is NOT true exactly for the two
legacy subnamespaces. -/
theorem c7_counterexample :
    ignored "my.coreutils" = true ∧ specExcludedName "my.coreutils" = false ∧
    ignored "myXcore" = true ∧ specExcludedName "myXcore" = false :=
  ⟨by decide, by decide, by decide, by decide⟩

/-- C7 amended: every record emitted by `all_modules` has a name on which the
exclusion filter returns false, and the filter is anchored to the whole name
and case-sensitive — but it implements the regex `^my.(core.*|config.*)$`
with unescaped dots, so besides the two legacy subnamespaces it also matches
any name of the shape `my` + any character + `core`/`config` + any suffix. -/
theorem c7_amended_exclusion_filter :
    (∀ (fs : List PyFile) (r : HPIModule), r ∈ (allModulesAux fs).1 →
      ignored r.name = false)
  ∧ ignored "my.core" = true ∧ ignored "my.config" = true
  ∧ ignored "my.core.sub" = true ∧ ignored "my.config.sub" = true
  ∧ ignored "my.coreutils" = true ∧ ignored "my.core2" = true
  ∧ ignored "myXcore" = true
  ∧ ignored "MY.CORE" = false ∧ ignored "my.Core" = false
  ∧ ignored "xmy.core" = false ∧ ignored "my.demo" = false
  ∧ ignored "my.notcore" = false := by
  refine ⟨?_, by decide, by decide, by decide, by decide, by decide, by decide,
    by decide, by decide, by decide, by decide, by decide, by decide⟩
  intro fs r hr
  obtain ⟨f, hf, body, hsrc, hs, hi, hn, hrEq⟩ := mem_records hr
  rw [hrEq]
  exact hi

/-- Witness for the amended C7: the record of the one-file walk `my/foo.py`
has a name the filter does not match. -/
theorem c7_witness : ignored (mkRecord shadowFile []).name = false :=
  c7_amended_exclusion_filter.1 [shadowFile] (mkRecord shadowFile []) (by
    rw [allModulesAux_emit shadowFile [] [] rfl (by decide) rfl (by decide)]
    exact List.mem_cons_self _ _)

/-- C8 counterexample: the sibling files `my/foo.py` and `my/foo/__init__.py`
can coexist in one tree and are both eligible, yet both canonicalize to
`my.foo`, so a single pass emits two records with equal names — the emitted
names are not unique. -/
theorem c8_counterexample :
    (allModulesAux [shadowFile, pkgInitFile]).1.map (fun r => r.name) =
      ["my.foo", "my.foo"] ∧
    ¬ ((allModulesAux [shadowFile, pkgInitFile]).1.map (fun r => r.name)).Nodup :=
  ⟨by decide, by decide⟩

lemma records_filter_map : ∀ (fs : List PyFile), (allModulesAux fs).2 = none →
    (allModulesAux fs).1 = (fs.filter eligible).map recordOf := by
  intro fs
  induction fs with
  | nil => intro _; rfl
  | cons f fs ih =>
    intro hclean
    cases hs : f.isSymlink with
    | true =>
      rw [allModulesAux_symlink f fs hs] at hclean ⊢
      rw [ih hclean]
      have he : eligible f = false := by simp [eligible, hs]
      simp [List.filter_cons, he]
    | false =>
      cases hi : ignored (canonName f.path) with
      | true =>
        rw [allModulesAux_ignored f fs hs hi] at hclean ⊢
        rw [ih hclean]
        have he : eligible f = false := by simp [eligible, hs, hi]
        simp [List.filter_cons, he]
      | false =>
        cases hsrc : f.src with
        | error e =>
          rw [allModulesAux_err f fs e hs hi hsrc] at hclean
          simp at hclean
        | ok body =>
          cases hn : isNotModule body with
          | true =>
            rw [allModulesAux_sentinel f fs body hs hi hsrc hn] at hclean ⊢
            rw [ih hclean]
            have he : eligible f = false := by simp [eligible, hs, hi, hsrc, hn]
            simp [List.filter_cons, he]
          | false =>
            rw [allModulesAux_emit f fs body hs hi hsrc hn] at hclean ⊢
            simp at hclean
            have he : eligible f = true := by simp [eligible, hs, hi, hsrc, hn]
            simp [List.filter_cons, he, recordOf, hsrc, ih hclean]

/-- C8 amended: on a clean pass over a well-formed walk (every path has at
least two components below the root directory `my`), `all_modules` emits
exactly one record per eligible file, in walk order, and no emitted name is
empty; uniqueness of names, however, only holds when no two eligible files
canonicalize to the same dotted name (see the counterexample
`my/foo.py` vs `my/foo/__init__.py`). -/
theorem c8_amended_one_record_per_file (fs : List PyFile)
    (hclean : (allModulesAux fs).2 = none)
    (hwf : ∀ f ∈ fs, 2 ≤ f.path.length ∧ f.path.head? = some "my") :
    (allModulesAux fs).1 = (fs.filter eligible).map recordOf ∧
    ∀ r ∈ (allModulesAux fs).1, r.name ≠ "" := by
  refine ⟨records_filter_map fs hclean, ?_⟩
  intro r hr
  obtain ⟨f, hf, body, hsrc, hs, hi, hn, hrEq⟩ := mem_records hr
  obtain ⟨hlen, hhead⟩ := hwf f hf
  rw [hrEq]
  show canonName f.path ≠ ""
  cases hpath : f.path with
  | nil => rw [hpath] at hhead; simp at hhead
  | cons a l =>
    rw [hpath] at hhead hlen
    simp at hhead
    rw [hhead] at hpath ⊢
    have hl : l ≠ [] := by
      intro h0
      rw [h0] at hlen
      simp at hlen
    exact canonName_my_ne_empty l hl

/-- Witness for the amended C8 at the one-file walk `my/foo.py`. -/
theorem c8_witness :
    ((allModulesAux [shadowFile]).1 = ([shadowFile].filter eligible).map recordOf) ∧
    (mkRecord shadowFile []).name ≠ "" := by
  have h := c8_amended_one_record_per_file [shadowFile] rfl (by decide)
  refine ⟨h.1, h.2 (mkRecord shadowFile []) ?_⟩
  rw [allModulesAux_emit shadowFile [] [] rfl (by decide) rfl (by decide)]
  exact List.mem_cons_self _ _

/-- C9 counterexample: for the emitted record of `my/a.b/__init__.py` the
claim's canonicalization (strip the extension, then drop a package-init
final component, then join with dots) yields `my.a.b`, but the record's name
is `my.a` — the code drops the init component first and then strips a
suffix off the resulting last component `a.b` — so the claimed round trip
fails on this file. -/
theorem c9_counterexample :
    (allModulesAux [dottedPkgFile]).1.map (fun r => (r.name, r.file)) =
      [("my.a", some ["my", "a.b", "__init__.py"])] ∧
    specCanonName ["my", "a.b", "__init__.py"] = "my.a.b" ∧
    ("my.a.b" : String) ≠ "my.a" :=
  ⟨by decide, by decide, by decide⟩

/-- C9 amended: the round trip holds with the code's canonicalization order —
drop the final component when it is the package-init filename, then strip the
extension of the resulting final component, then join with dots: for every
record emitted by `all_modules`, applying that canonicalization to the
record's `file` path yields exactly the record's `name`. -/
theorem c9_amended_roundtrip (fs : List PyFile) :
    ∀ r ∈ (allModulesAux fs).1, r.file.map canonName = some r.name := by
  intro r hr
  obtain ⟨f, hf, body, hsrc, hs, hi, hn, hrEq⟩ := mem_records hr
  rw [hrEq]
  rfl

/-- Witness for the amended C9 at the one-file walk `my/a.b/__init__.py`. -/
theorem c9_witness :
    (mkRecord dottedPkgFile []).file.map canonName =
      some (mkRecord dottedPkgFile []).name :=
  c9_amended_roundtrip [dottedPkgFile] (mkRecord dottedPkgFile []) (by
    rw [allModulesAux_emit dottedPkgFile [] [] rfl (by decide) rfl (by decide)]
    exact List.mem_cons_self _ _)
